import Mathlib

/-!
Verification of the request dispatch engine of the `dataframe_agent`
repository against its natural-language specification.

The development shallowly embeds the Python sources:

* `src/llm_executor/executor/validator.py` — the AST-based security
  validator (`NoFileIORule`, `NoOSCommandsRule`, `NoNetworkRule`,
  `ImportValidationRule`, `CodeValidator`);
* `src/llm_executor/executor/classifier.py` — the lightweight/heavy
  classifier (`CodeClassifier`);
* `src/llm_executor/llm_service/orchestration.py` — the LangGraph
  orchestration flow (`LLMOrchestrationFlow.execute` and its nodes);
* `src/llm_executor/executor_service/error_handlers.py` — the retry
  coordinator (`RetryWrapper.execute_with_retry`,
  `ExecutionErrorHandler`) and the job monitor
  (`JobErrorHandler.monitor_job`);
* `src/llm_executor/executor_service/kubernetes_job_manager.py` —
  job-id derivation (`KubernetesJobManager._generate_job_id`);
* `src/llm_executor/executor_service/event_hub_consumer.py` — the
  async consumer's acknowledgment discipline (`EventHubConsumer._on_event`).

Python syntax trees are embedded as the tagged variant `PyAst` over the
node kinds the rules inspect.  CPython's `ast.parse` is not embedded:
functions that parse a source string take the parse outcome
(`Option PyAst`, `none` for a `SyntaxError`) where the Python code calls
`ast.parse`, and orchestration-level functions take the string-consuming
collaborators (`validate`, `classify`, the LLM client) as explicit
function parameters, exactly where the Python classes hold them as
attributes.
-/

namespace LlmExecutor

/-- `ExecutionStatus` from `shared/models.py`. -/
inductive ExecutionStatus where
  | PENDING
  | RUNNING
  | SUCCESS
  | FAILED
  | TIMEOUT
  deriving DecidableEq, Repr

/-- `CodeComplexity` from `shared/models.py`. -/
inductive CodeComplexity where
  | LIGHTWEIGHT
  | HEAVY
  deriving DecidableEq, Repr

/-- `ValidationResult` from `shared/models.py`: validation verdict with
error and warning findings. -/
structure ValidationResult where
  is_valid : Bool
  errors : List String
  warnings : List String
  deriving DecidableEq, Repr

/-- `ExecutionResult` from `shared/models.py`. -/
structure ExecutionResult where
  request_id : String
  stdout : String
  stderr : String
  exit_code : Int
  duration_ms : Nat
  status : ExecutionStatus
  deriving DecidableEq, Repr

/-- Embedded Python abstract syntax tree, restricted to the node kinds
inspected by `validator.py` and `classifier.py`: `ast.Name`,
`ast.Attribute`, `ast.Call`, `ast.Import` (alias names), `ast.ImportFrom`,
`ast.With` (context expressions of the items, then the body),
`ast.For`/`ast.While` (children), expression/assignment statements and
the module root.  `Constant` stands for literal leaves. -/
inductive PyAst where
  | Name (id : String)
  | Constant
  | Attribute (value : PyAst) (attr : String)
  | Call (func : PyAst) (args : List PyAst)
  | Import (names : List String)
  | ImportFrom (module : Option String) (names : List String)
  | With (items : List PyAst) (body : List PyAst)
  | For (body : List PyAst)
  | While (body : List PyAst)
  | Expr (value : PyAst)
  | Assign (value : PyAst)
  | Module (body : List PyAst)
  deriving Repr

mutual
/-- `ast.walk(tree)`: every node of the tree, the root included.
CPython enumerates breadth-first; the embedding enumerates depth-first.
The rules of `validator.py` only aggregate per-node findings over the
walk, so everything proved here depends only on the set of visited
nodes (the order of findings inside one rule's list may differ). -/
def walk : PyAst → List PyAst
  | .Name i => [.Name i]
  | .Constant => [.Constant]
  | .Attribute v a => .Attribute v a :: walk v
  | .Call f args => .Call f args :: (walk f ++ walkList args)
  | .Import ns => [.Import ns]
  | .ImportFrom m ns => [.ImportFrom m ns]
  | .With items body => .With items body :: (walkList items ++ walkList body)
  | .For body => .For body :: walkList body
  | .While body => .While body :: walkList body
  | .Expr v => .Expr v :: walk v
  | .Assign v => .Assign v :: walk v
  | .Module body => .Module body :: walkList body

/-- `walk` over a list of sibling nodes. -/
def walkList : List PyAst → List PyAst
  | [] => []
  | x :: xs => walk x ++ walkList xs
end

/-- `alias.name.split('.')[0]` / `node.module.split('.')[0]`: the
top-level segment of a dotted module path — the prefix before the first
`'.'` (for every string, `split('.')` puts exactly that prefix at
index 0). -/
def topSegment (s : String) : String :=
  String.mk (s.toList.takeWhile fun c => c ≠ '.')

/-- `NoFileIORule.FILE_OPERATIONS`. -/
def FILE_OPERATIONS : List String := ["open", "read", "write", "file"]

/-- `NoOSCommandsRule.OS_OPERATIONS`. -/
def OS_OPERATIONS : List String :=
  ["system", "popen", "exec", "eval", "compile", "__import__"]

/-- `NoOSCommandsRule.OS_MODULES`. -/
def OS_MODULES : List String := ["os", "subprocess", "commands"]

/-- `NoNetworkRule.NETWORK_OPERATIONS`. -/
def NETWORK_OPERATIONS : List String :=
  ["socket", "urlopen", "request", "get", "post", "put", "delete", "patch"]

/-- `NoNetworkRule.NETWORK_MODULES`. -/
def NETWORK_MODULES : List String :=
  ["socket", "urllib", "urllib2", "urllib3", "requests", "http",
   "httplib", "httplib2", "aiohttp"]

/-- `ImportValidationRule.DEFAULT_ALLOWLIST`. -/
def DEFAULT_ALLOWLIST : List String :=
  ["math", "random", "datetime", "json", "re", "collections", "itertools",
   "functools", "operator", "string", "decimal", "fractions", "statistics",
   "typing", "dataclasses", "enum", "copy", "pprint", "textwrap",
   "unicodedata", "hashlib", "hmac", "secrets", "uuid", "time", "calendar",
   "zoneinfo"]

/-- `ImportValidationRule.PROHIBITED_MODULES`. -/
def PROHIBITED_MODULES : List String :=
  ["os", "sys", "subprocess", "socket", "urllib", "urllib2", "urllib3",
   "requests", "http", "httplib", "httplib2", "aiohttp", "io", "pathlib",
   "shutil", "tempfile", "glob", "pickle", "shelve", "dbm", "sqlite3",
   "ctypes", "multiprocessing", "threading", "asyncio", "concurrent",
   "__builtin__", "builtins", "importlib"]

/-- The findings `NoFileIORule.validate` appends while visiting one node
of the walk: direct calls to a file operation, attribute-method calls
named like one, and `with open(...)` items. -/
def fileErrorsOfNode : PyAst → List String
  | .Call f _ =>
    (match f with
     | .Name id =>
       if id ∈ FILE_OPERATIONS then
         ["File I/O operation not allowed: " ++ id]
       else []
     | .Attribute _ attr =>
       if attr ∈ FILE_OPERATIONS then
         ["File I/O operation not allowed: " ++ attr]
       else []
     | _ => [])
  | .With items _ =>
    items.flatMap fun item =>
      match item with
      | .Call (.Name id) _ =>
        if id = "open" then
          ["File I/O operation not allowed: open (in with statement)"]
        else []
      | _ => []
  | _ => []

/-- `NoFileIORule.validate`. -/
def NoFileIORule_validate (tree : PyAst) : ValidationResult :=
  let errors := (walk tree).flatMap fileErrorsOfNode
  { is_valid := errors.length = 0, errors := errors, warnings := [] }

/-- The findings `NoOSCommandsRule.validate` appends while visiting one
node: direct calls named like an OS operation, attribute calls with such
a leaf name, and attribute calls whose value is a name in `OS_MODULES`
(the leaf-name check and the module-root check are separate `if`s, so a
single call can contribute two findings). -/
def osErrorsOfNode : PyAst → List String
  | .Call f _ =>
    (match f with
     | .Name id =>
       if id ∈ OS_OPERATIONS then
         ["OS command execution not allowed: " ++ id]
       else []
     | .Attribute v attr =>
       (if attr ∈ OS_OPERATIONS then
         ["OS command execution not allowed: " ++ attr]
        else []) ++
       (match v with
        | .Name m =>
          if m ∈ OS_MODULES then
            ["OS command execution not allowed: " ++ m ++ "." ++ attr]
          else []
        | _ => [])
     | _ => [])
  | _ => []

/-- `NoOSCommandsRule.validate`. -/
def NoOSCommandsRule_validate (tree : PyAst) : ValidationResult :=
  let errors := (walk tree).flatMap osErrorsOfNode
  { is_valid := errors.length = 0, errors := errors, warnings := [] }

/-- The findings `NoNetworkRule.validate` appends while visiting one
node (same shape as the OS rule, over the network sets). -/
def networkErrorsOfNode : PyAst → List String
  | .Call f _ =>
    (match f with
     | .Name id =>
       if id ∈ NETWORK_OPERATIONS then
         ["Network operation not allowed: " ++ id]
       else []
     | .Attribute v attr =>
       (if attr ∈ NETWORK_OPERATIONS then
         ["Network operation not allowed: " ++ attr]
        else []) ++
       (match v with
        | .Name m =>
          if m ∈ NETWORK_MODULES then
            ["Network operation not allowed: " ++ m ++ "." ++ attr]
          else []
        | _ => [])
     | _ => [])
  | _ => []

/-- `NoNetworkRule.validate`. -/
def NoNetworkRule_validate (tree : PyAst) : ValidationResult :=
  let errors := (walk tree).flatMap networkErrorsOfNode
  { is_valid := errors.length = 0, errors := errors, warnings := [] }

/-- The findings `ImportValidationRule.validate` appends while visiting
one node: an `import X` alias or a `from X import ...` module whose
top-level segment is in `PROHIBITED_MODULES`, or otherwise not in the
allowlist, is reported (the prohibition branch is checked first; the
`unauthorized_imports` local of the Python code does not influence the
returned `ValidationResult` and is not modelled). -/
def importErrorsOfNode (allowlist : List String) : PyAst → List String
  | .Import names =>
    names.flatMap fun nm =>
      let module_name := topSegment nm
      if module_name ∈ PROHIBITED_MODULES then
        ["Unauthorized import detected: " ++ nm]
      else if module_name ∉ allowlist then
        ["Unauthorized import detected: " ++ nm]
      else []
  | .ImportFrom module _ =>
    (match module with
     | some m =>
       let module_name := topSegment m
       if module_name ∈ PROHIBITED_MODULES then
         ["Unauthorized import detected: " ++ m]
       else if module_name ∉ allowlist then
         ["Unauthorized import detected: " ++ m]
       else []
     | none => [])
  | _ => []

/-- `ImportValidationRule.validate` with the rule's `allowlist`
attribute (`__init__` substitutes `DEFAULT_ALLOWLIST` for `None`). -/
def ImportValidationRule_validate (allowlist : List String)
    (tree : PyAst) : ValidationResult :=
  let errors := (walk tree).flatMap (importErrorsOfNode allowlist)
  { is_valid := errors.length = 0, errors := errors, warnings := [] }

/-- `CodeValidator.__init__`: the import allowlist actually used —
`DEFAULT_ALLOWLIST` when the caller passed `None`. -/
def effectiveAllowlist : Option (List String) → List String
  | some l => l
  | none => DEFAULT_ALLOWLIST

/-- `CodeValidator.validate` after a successful `ast.parse`: run the
four rules in order and aggregate their errors and warnings. -/
def CodeValidator_validateTree (import_allowlist : Option (List String))
    (tree : PyAst) : ValidationResult :=
  let results :=
    [NoFileIORule_validate tree,
     NoOSCommandsRule_validate tree,
     NoNetworkRule_validate tree,
     ImportValidationRule_validate (effectiveAllowlist import_allowlist) tree]
  let all_errors := results.flatMap (·.errors)
  let all_warnings := results.flatMap (·.warnings)
  { is_valid := all_errors.length = 0
    errors := all_errors
    warnings := all_warnings }

/-- `CodeValidator.validate` on a parse outcome: a `SyntaxError` from
`ast.parse` (here `none`, carrying the exception text) yields the
invalid verdict with the syntax-error finding; a parsed tree is run
through the rule pipeline. -/
def CodeValidator_validate (import_allowlist : Option (List String))
    (parsed : Option PyAst) (syntaxMsg : String := "") : ValidationResult :=
  match parsed with
  | none =>
    { is_valid := false
      errors := ["Syntax error: " ++ syntaxMsg]
      warnings := [] }
  | some tree => CodeValidator_validateTree import_allowlist tree

/-- `CodeClassifier.HEAVY_IMPORTS`. -/
def HEAVY_IMPORTS : List String :=
  ["pandas", "modin", "polars", "pyarrow", "dask", "ray", "pyspark"]

/-- `CodeClassifier.FILE_MODULES`. -/
def FILE_MODULES : List String := ["io", "pathlib"]

/-- Does one walked node witness a heavy import?
(`CodeClassifier._has_heavy_imports`, body of the walk loop). -/
def heavyImportNode : PyAst → Bool
  | .Import names =>
    names.any fun nm => topSegment nm ∈ HEAVY_IMPORTS
  | .ImportFrom module _ =>
    (match module with
     | some m => topSegment m ∈ HEAVY_IMPORTS
     | none => false)
  | _ => false

/-- `CodeClassifier._has_heavy_imports`. -/
def hasHeavyImports (tree : PyAst) : Bool :=
  (walk tree).any heavyImportNode

/-- Does one walked node witness a file-I/O construct?
(`CodeClassifier._has_file_io`, body of the walk loop: file-operation
calls, `with open(...)` items, imports of `io`/`pathlib`). -/
def fileIONode : PyAst → Bool
  | .Call f _ =>
    (match f with
     | .Name id => id ∈ FILE_OPERATIONS
     | .Attribute _ attr => attr ∈ FILE_OPERATIONS
     | _ => false)
  | .With items _ =>
    items.any fun item =>
      match item with
      | .Call (.Name id) _ => id = "open"
      | _ => false
  | .Import names =>
    names.any fun nm => topSegment nm ∈ FILE_MODULES
  | .ImportFrom module _ =>
    (match module with
     | some m => topSegment m ∈ FILE_MODULES
     | none => false)
  | _ => false

/-- `CodeClassifier._has_file_io`. -/
def hasFileIO (tree : PyAst) : Bool :=
  (walk tree).any fileIONode

mutual
/-- `count_loop_depth(node, d)` inside `CodeClassifier._has_complex_loops`:
the maximum over the tree of the current nesting depth, where entering a
`for`/`while` child raises the depth by one. -/
def countLoopDepth : PyAst → Nat → Nat
  | .Name _, d => d
  | .Constant, d => d
  | .Attribute v _, d => countChild v d
  | .Call f args, d => Nat.max (countChild f d) (countChildren args d)
  | .Import _, d => d
  | .ImportFrom _ _, d => d
  | .With items body, d => Nat.max (countChildren items d) (countChildren body d)
  | .For body, d => countChildren body d
  | .While body, d => countChildren body d
  | .Expr v, d => countChild v d
  | .Assign v, d => countChild v d
  | .Module body, d => countChildren body d
termination_by n _ => (sizeOf n, 0)

/-- Recursion into one child of `iter_child_nodes`: a loop child
(`ast.For`, `ast.While`) is entered at depth `d + 1`, any other child
at depth `d`. -/
def countChild : PyAst → Nat → Nat
  | .For body, d => countLoopDepth (.For body) (d + 1)
  | .While body, d => countLoopDepth (.While body) (d + 1)
  | .Name i, d => countLoopDepth (.Name i) d
  | .Constant, d => countLoopDepth .Constant d
  | .Attribute v a, d => countLoopDepth (.Attribute v a) d
  | .Call f args, d => countLoopDepth (.Call f args) d
  | .Import ns, d => countLoopDepth (.Import ns) d
  | .ImportFrom m ns, d => countLoopDepth (.ImportFrom m ns) d
  | .With items body, d => countLoopDepth (.With items body) d
  | .Expr v, d => countLoopDepth (.Expr v) d
  | .Assign v, d => countLoopDepth (.Assign v) d
  | .Module body, d => countLoopDepth (.Module body) d
termination_by n _ => (sizeOf n, 1)

/-- Fold of `count_loop_depth` over the children, taking the maximum
(the Python loop starts from `max_depth = current_depth`). -/
def countChildren : List PyAst → Nat → Nat
  | [], d => d
  | x :: xs, d => Nat.max (countChild x d) (countChildren xs d)
termination_by xs _ => (sizeOf xs, 0)
end

/-- `CodeClassifier._has_complex_loops`: loops nested 3+ levels deep. -/
def hasComplexLoops (tree : PyAst) : Bool :=
  countLoopDepth tree 0 ≥ 3

/-- `CodeClassifier.classify` on a parse outcome: a `SyntaxError`
defaults to `LIGHTWEIGHT`; otherwise heavy imports, then file I/O, then
complex loops force `HEAVY`. -/
def classify (parsed : Option PyAst) : CodeComplexity :=
  match parsed with
  | none => CodeComplexity.LIGHTWEIGHT
  | some tree =>
    if hasHeavyImports tree then CodeComplexity.HEAVY
    else if hasFileIO tree then CodeComplexity.HEAVY
    else if hasComplexLoops tree then CodeComplexity.HEAVY
    else CodeComplexity.LIGHTWEIGHT

/-- `KubernetesJobManager._generate_job_id`.  Strings are modelled as
their character lists; `c.isalnum()` and `.lower()` are embedded with
their ASCII semantics (`Char.isAlphanum`, `Char.toLower`), which agree
with Python on ASCII request identifiers. -/
def generate_job_id (request_id : String) : String :=
  let clean_id :=
    String.mk ((request_id.toList.filter
      fun c => c.isAlphanum ∨ c = '-').map Char.toLower)
  let clean_id :=
    if clean_id ≠ "" ∧ ¬(clean_id.toList.headD ' ').isAlphanum then
      "job-" ++ clean_id
    else clean_id
  let clean_id :=
    if clean_id.length > 50 then String.mk (clean_id.toList.take 50)
    else clean_id
  "heavy-executor-" ++ clean_id

/-- The RFC-1123 label pattern `[a-z0-9]([-a-z0-9]*[a-z0-9])?` the spec
requires of derived job ids (nonempty, every character a lowercase ASCII
alphanumeric or hyphen, first and last characters alphanumeric). -/
def matchesLabelPattern (s : String) : Bool :=
  let cs := s.toList
  let lowerAlnum := fun c : Char => ('a' ≤ c ∧ c ≤ 'z') ∨ ('0' ≤ c ∧ c ≤ '9')
  cs ≠ [] ∧
    cs.all (fun c => lowerAlnum c ∨ c = '-') ∧
    lowerAlnum (cs.headD ' ') ∧
    lowerAlnum (cs.getLastD ' ')

/-- `GraphState` from `llm_service/orchestration.py` (the `TypedDict`
driving the LangGraph flow).  `validation_result` and `classification`
start as `None`. -/
structure GraphState where
  query : String
  generated_code : String
  validation_result : Option ValidationResult
  validation_attempts : Nat
  max_retries : Nat
  classification : Option CodeComplexity
  error : String
  status : String
  deriving DecidableEq, Repr

/-- `InputParserNode.__call__`: pass the query through, set status
`"parsed"`. -/
def inputParserNode (state : GraphState) : GraphState :=
  { state with status := "parsed" }

/-- `CodeGenerationNode.__call__` with its LLM collaborator abstracted
as `gen : query → generated code` (the class holds `llm_client` and
either calls it through a prompt or uses `_mock_generate`). -/
def codeGenerationNode (gen : String → String) (state : GraphState) :
    GraphState :=
  { state with generated_code := gen state.query, status := "generated" }

/-- `CodeValidatorNode.__call__` with the validator abstracted as
`validate : code string → ValidationResult` (the node delegates to
`CodeValidator().validate`, which parses the string; see
`CodeValidator_validate` for the post-parse pipeline). -/
def codeValidatorNode (validate : String → ValidationResult)
    (state : GraphState) : GraphState :=
  let validation_result := validate state.generated_code
  { state with
    validation_result := some validation_result
    status := if validation_result.is_valid then "validated"
              else "validation_failed" }

/-- `CorrectionNode.__call__` with the LLM collaborator abstracted as
`correct : failed code → validation result → corrected code`: store the
corrected code, increment `validation_attempts` by one, set status
`"corrected"`. -/
def correctionNode
    (correct : String → Option ValidationResult → String)
    (state : GraphState) : GraphState :=
  { state with
    generated_code := correct state.generated_code state.validation_result
    validation_attempts := state.validation_attempts + 1
    status := "corrected" }

/-- `ExecutionRouterNode.__call__` with the classifier abstracted as
`classifyFn : code string → CodeComplexity` (the node delegates to
`CodeClassifier().classify`; see `classify` for the post-parse
decision). -/
def executionRouterNode (classifyFn : String → CodeComplexity)
    (state : GraphState) : GraphState :=
  { state with
    classification := some (classifyFn state.generated_code)
    status := "routed" }

/-- `should_retry_validation`: `"max_retries_exceeded"` when
`attempts >= max_retries`, else `"correction"`. -/
def should_retry_validation (state : GraphState) : String :=
  if state.validation_attempts ≥ state.max_retries then
    "max_retries_exceeded"
  else "correction"

/-- `check_validation_result`: `"valid"` when a validation result is
present and valid, else `"invalid"`. -/
def check_validation_result (state : GraphState) : String :=
  match state.validation_result with
  | some vr => if vr.is_valid then "valid" else "invalid"
  | none => "invalid"

/-- The compiled graph from `code_validator` onward:
`code_validator` → (`valid` → `execution_router` → END;
`invalid` → `check_retry_limit` (the identity node) →
(`max_retries_exceeded` → END; `correction` → `correction` node →
`code_validator`)).  `fuel` bounds the correction cycles; the flow keeps
the invariant `fuel = max_retries - validation_attempts`, under which
the `fuel = 0` fallback is unreachable because `should_retry_validation`
already ends the flow. -/
def runFromValidator (validate : String → ValidationResult)
    (classifyFn : String → CodeComplexity)
    (correct : String → Option ValidationResult → String) :
    Nat → GraphState → GraphState
  | fuel, state =>
    let s1 := codeValidatorNode validate state
    if check_validation_result s1 = "valid" then
      executionRouterNode classifyFn s1
    else if should_retry_validation s1 = "max_retries_exceeded" then
      s1
    else
      match fuel with
      | 0 => s1
      | fuel + 1 =>
        runFromValidator validate classifyFn correct fuel
          (correctionNode correct s1)

/-- `LLMOrchestrationFlow.execute`: build the initial state, run
`input_parser` → `code_generation` → the validation loop. -/
def flowExecute (validate : String → ValidationResult)
    (classifyFn : String → CodeComplexity)
    (gen : String → String)
    (correct : String → Option ValidationResult → String)
    (query : String) (max_retries : Nat := 3) : GraphState :=
  let initial_state : GraphState :=
    { query := query
      generated_code := ""
      validation_result := none
      validation_attempts := 0
      max_retries := max_retries
      classification := none
      error := ""
      status := "initialized" }
  let s1 := inputParserNode initial_state
  let s2 := codeGenerationNode gen s1
  runFromValidator validate classifyFn correct max_retries s2

/-- The exception classes of `shared/exceptions.py` that
`ExecutionErrorHandler` dispatches on, with the `retryable` flag carried
by a generic `ExecutionError`. -/
inductive ErrKind where
  | timeoutError
  | memoryError
  | networkError
  | resourceExhaustedError
  | runtimeError
  | executionError (retryable : Bool)
  | unknown
  deriving DecidableEq, Repr

/-- An exception value: its class and its message (`str(e)`). -/
structure ExecError where
  kind : ErrKind
  message : String
  deriving DecidableEq, Repr

/-- The Python class name of an exception (`type(error).__name__`). -/
def errTypeName : ErrKind → String
  | .timeoutError => "TimeoutError"
  | .memoryError => "MemoryError"
  | .networkError => "NetworkError"
  | .resourceExhaustedError => "ResourceExhaustedError"
  | .runtimeError => "RuntimeError"
  | .executionError _ => "ExecutionError"
  | .unknown => "Exception"

/-- `ExecutionErrorHandler.is_retryable`: explicitly non-retryable
classes, then explicitly retryable classes, then the `retryable` flag of
an `ExecutionError`, defaulting to non-retryable. -/
def is_retryable (error : ExecError) : Bool :=
  match error.kind with
  | .timeoutError => false
  | .memoryError => false
  | .networkError => false
  | .resourceExhaustedError => true
  | .runtimeError => true
  | .executionError retryable => retryable
  | .unknown => false

/-- `ExecutionErrorHandler.calculate_backoff`:
`min(2 ** attempt, 60)` seconds. -/
def calculate_backoff (attempt : Nat) : Nat :=
  min (2 ^ attempt) 60

/-- The dictionary returned by `ExecutionErrorHandler.handle_error`
(the keys the retry loop reads, plus the human-readable fields used by
`_format_error_history`). -/
structure ErrorInfo where
  status : String
  error : String
  error_type : String
  retryable : Bool
  attempts : Nat
  reason : Option String
  backoff_delay : Nat
  deriving DecidableEq, Repr

/-- `ExecutionErrorHandler.handle_error`: exhausted retries and
non-retryable errors yield `status="failed"`; a retryable error below
the budget yields `status="retry"` with the backoff delay.
(`backoff_delay` is only present in the Python dict on the retry path;
the other paths never read it and it is fixed at 0 here.) -/
def handle_error (max_retries : Nat) (error : ExecError)
    (attempt : Nat) : ErrorInfo :=
  if attempt ≥ max_retries then
    { status := "failed", error := error.message
      error_type := errTypeName error.kind, retryable := false
      attempts := attempt + 1
      reason := some "Maximum retry attempts exceeded", backoff_delay := 0 }
  else if ¬is_retryable error then
    { status := "failed", error := error.message
      error_type := errTypeName error.kind, retryable := false
      attempts := attempt + 1, reason := none, backoff_delay := 0 }
  else
    { status := "retry", error := error.message
      error_type := errTypeName error.kind, retryable := true
      attempts := attempt + 1, reason := none
      backoff_delay := calculate_backoff attempt }

/-- One call of the wrapped executor: either it returns an
`ExecutionResult` or it raises. -/
inductive AttemptOutcome where
  | completed (result : ExecutionResult)
  | raised (error : ExecError)
  deriving DecidableEq, Repr

/-- `RetryWrapper._format_error_history`. -/
def format_error_history (error_history : List ErrorInfo) : String :=
  let lines :=
    ["Execution failed after multiple attempts:"] ++
    (error_history.enumFrom 1).flatMap fun (i, info) =>
      ["\nAttempt " ++ toString i ++ ":",
       "  Error Type: " ++ info.error_type,
       "  Error: " ++ info.error] ++
      (match info.reason with
       | some r => ["  Reason: " ++ r]
       | none => [])
  String.intercalate "\n" lines

/-- The observable trace of `RetryWrapper.execute_with_retry`: the
returned result, how many times the wrapped executor was called and the
sequence of backoff sleeps performed (in order). -/
structure RetryTrace where
  result : ExecutionResult
  calls : Nat
  sleeps : List Nat
  deriving DecidableEq, Repr

/-- The `while attempt <= max_retries` loop of
`RetryWrapper.execute_with_retry`, with the wrapped executor abstracted
as `exec : attempt index → AttemptOutcome`.  Any returned result (success,
timeout, or nonzero-exit failure) is returned as-is; an exception goes
through `handle_error`, and only a `"retry"` decision sleeps and loops.
`fuel` counts the remaining loop iterations (`max_retries + 1 - attempt`);
the `fuel = 0` case is the loop condition turning false, which returns
the synthesized failure result. -/
def retryLoop (exec : Nat → AttemptOutcome) (max_retries : Nat)
    (request_id : String) :
    Nat → Nat → List ErrorInfo → List Nat → RetryTrace
  | 0, attempt, error_history, sleeps =>
    { result :=
        { request_id := request_id, stdout := ""
          stderr := format_error_history error_history
          exit_code := -1, duration_ms := 0, status := .FAILED }
      calls := attempt
      sleeps := sleeps.reverse }
  | fuel + 1, attempt, error_history, sleeps =>
    match exec attempt with
    | .completed result =>
      { result := result, calls := attempt + 1, sleeps := sleeps.reverse }
    | .raised e =>
      let error_info := handle_error max_retries e attempt
      let error_history := error_history ++ [error_info]
      if error_info.status ≠ "retry" then
        { result :=
            { request_id := request_id, stdout := ""
              stderr := format_error_history error_history
              exit_code := -1, duration_ms := 0, status := .FAILED }
          calls := attempt + 1
          sleeps := sleeps.reverse }
      else
        retryLoop exec max_retries request_id fuel (attempt + 1)
          error_history (error_info.backoff_delay :: sleeps)

/-- `RetryWrapper.execute_with_retry`: start the loop at attempt 0 with
`max_retries + 1` available iterations. -/
def execute_with_retry (exec : Nat → AttemptOutcome) (max_retries : Nat)
    (request_id : String) : RetryTrace :=
  retryLoop exec max_retries request_id (max_retries + 1) 0 [] []

/-- A `V1JobCondition` as read by `JobErrorHandler`: its `type`,
`reason` (empty string for `None`) and `message`. -/
structure JobCondition where
  ctype : String
  reason : String
  message : String
  deriving DecidableEq, Repr

/-- The `job.status` fields `JobErrorHandler.monitor_job` reads.
`succeeded` and `failed` are `Optional[int]` in the Kubernetes client;
Python truthiness (`None` and `0` are falsy) is embedded by mapping
`None` to `0`.  `conditions` is `Optional[List]`; `None` maps to `[]`
(both are falsy for the `if job.status.conditions:` check). -/
structure JobView where
  succeeded : Nat
  failed : Nat
  conditions : List JobCondition
  deriving DecidableEq, Repr

/-- One event of the job-watch stream, with the wall-clock time elapsed
since `monitor_job` started (`time.time() - start_time`) at the moment
the event is handled, in seconds. -/
structure MonitorEvent where
  elapsed : Nat
  job : JobView
  deriving DecidableEq, Repr

/-- The dictionary `JobErrorHandler.monitor_job` returns (the keys
present vary by outcome; absent keys are `none`). -/
structure MonitorOutcome where
  status : String
  job_id : String
  failed_count : Option Nat
  reason : Option String
  message : Option String
  deriving DecidableEq, Repr

/-- `JobErrorHandler._get_failure_reason`: the `reason` of the first
condition with `type == "Failed"`, with `condition.reason or "Unknown"`
substituting `"Unknown"` for a falsy reason; `"Unknown"` when there is
no such condition. -/
def get_failure_reason (job : JobView) : String :=
  match job.conditions.find? (fun c => c.ctype = "Failed") with
  | some c => if c.reason = "" then "Unknown" else c.reason
  | none => "Unknown"

/-- The body of `monitor_job`'s event loop for one event: `some` an
outcome when the body executes a `return`, `none` when it falls through
to the next event.  In source order: the elapsed-deadline check, the
`succeeded` check, the `failed >= max_job_retries` check (nested under
the `failed` truthiness check, falling through when below the bound),
then the scan of the `Failed` conditions, which returns only for reason
`"DeadlineExceeded"`. -/
def monitorStep (max_job_retries : Nat) (timeout : Nat) (job_id : String)
    (ev : MonitorEvent) : Option MonitorOutcome :=
  if ev.elapsed > timeout then
    some { status := "timeout", job_id := job_id, failed_count := none
           reason := none
           message := some "Job monitoring timeout exceeded" }
  else if ev.job.succeeded > 0 then
    some { status := "success", job_id := job_id, failed_count := none
           reason := none, message := none }
  else if ev.job.failed > 0 ∧ ev.job.failed ≥ max_job_retries then
    some { status := "failed", job_id := job_id
           failed_count := some ev.job.failed
           reason := some (get_failure_reason ev.job)
           message := some "Job exceeded maximum retry attempts" }
  else
    ev.job.conditions.findSome? fun condition =>
      if condition.ctype = "Failed" ∧ condition.reason = "DeadlineExceeded"
      then
        some { status := "failed", job_id := job_id, failed_count := none
               reason := some condition.reason
               message := some condition.message }
      else none

/-- `JobErrorHandler.monitor_job` over the watch stream it receives
(the stream itself stops after `timeout_seconds`): the first event whose
loop body returns decides the outcome; when the stream ends without a
return, the job is reported as still `running`. -/
def monitor_job (max_job_retries : Nat) (job_id : String)
    (timeout : Nat) : List MonitorEvent → MonitorOutcome
  | [] =>
    { status := "running", job_id := job_id, failed_count := none
      reason := none, message := none }
  | ev :: rest =>
    match monitorStep max_job_retries timeout job_id ev with
    | some outcome => outcome
    | none => monitor_job max_job_retries job_id timeout rest

/-- `CodeExecutionRequest` from `shared/models.py`. -/
structure CodeExecutionRequest where
  request_id : String
  code : String
  timeout : Nat
  max_retries : Nat
  deriving DecidableEq, Repr

/-- What `EventHubConsumer._on_event` observably did with a message:
whether `partition_context.update_checkpoint` ran, and whether the
logging context was cleared again (the `finally` block). -/
structure OnEventTrace where
  checkpointed : Bool
  requestIdCleared : Bool
  deriving DecidableEq, Repr

/-- `EventHubConsumer._on_event` over the outcomes of its fallible
steps, each abstracted as an `Except` value: `parse` is the outcome of
`_parse_message`, `classifyStep` of `classifier.classify`, and
`dispatch` of `_handle_heavy_code` / `_handle_lightweight_code` on the
complexity it computed.  Every exception from the `try` block —
`MessageParsingError`, `ProcessingError` or any other — is caught by one
of the three `except` clauses, which log and return without updating
the checkpoint; the `finally` clause always clears the request id. -/
def on_event (parse : Except String CodeExecutionRequest)
    (classifyStep : CodeExecutionRequest → Except String CodeComplexity)
    (dispatch : CodeExecutionRequest → CodeComplexity → Except String Unit) :
    OnEventTrace :=
  match parse with
  | .error _ => { checkpointed := false, requestIdCleared := true }
  | .ok request =>
    match classifyStep request with
    | .error _ => { checkpointed := false, requestIdCleared := true }
    | .ok complexity =>
      match dispatch request complexity with
      | .error _ => { checkpointed := false, requestIdCleared := true }
      | .ok _ => { checkpointed := true, requestIdCleared := true }

/-! ## Shared lemmas about the validator pipeline -/

/-- The aggregated error list of `CodeValidator.validate` is the
concatenation of the four rules' error lists, in pipeline order. -/
theorem validateTree_errors (allowOpt : Option (List String)) (t : PyAst) :
    (CodeValidator_validateTree allowOpt t).errors =
      (NoFileIORule_validate t).errors ++
      (NoOSCommandsRule_validate t).errors ++
      (NoNetworkRule_validate t).errors ++
      (ImportValidationRule_validate (effectiveAllowlist allowOpt) t).errors := by
  simp [CodeValidator_validateTree]

/-- A verdict with a non-empty error list is invalid. -/
theorem validateTree_isValid_false {allowOpt : Option (List String)}
    {t : PyAst} {e : String}
    (h : e ∈ (CodeValidator_validateTree allowOpt t).errors) :
    (CodeValidator_validateTree allowOpt t).is_valid = false := by
  have hne : (CodeValidator_validateTree allowOpt t).errors ≠ [] :=
    List.ne_nil_of_mem h
  simp only [CodeValidator_validateTree] at hne ⊢
  simpa [List.length_eq_zero] using hne

/-- A finding of the OS-commands rule at a walked node survives into
the rule's error list. -/
theorem mem_os_errors {t n : PyAst} {e : String}
    (hn : n ∈ walk t) (he : e ∈ osErrorsOfNode n) :
    e ∈ (NoOSCommandsRule_validate t).errors := by
  simp only [NoOSCommandsRule_validate]
  exact List.mem_flatMap.mpr ⟨n, hn, he⟩

/-- A finding of the import rule at a walked node survives into the
rule's error list. -/
theorem mem_import_errors {allowlist : List String} {t n : PyAst}
    {e : String}
    (hn : n ∈ walk t) (he : e ∈ importErrorsOfNode allowlist n) :
    e ∈ (ImportValidationRule_validate allowlist t).errors := by
  simp only [ImportValidationRule_validate]
  exact List.mem_flatMap.mpr ⟨n, hn, he⟩

/-- An OS-commands finding survives into the aggregated verdict. -/
theorem os_error_in_validateTree {allowOpt : Option (List String)}
    {t n : PyAst} {e : String}
    (hn : n ∈ walk t) (he : e ∈ osErrorsOfNode n) :
    e ∈ (CodeValidator_validateTree allowOpt t).errors := by
  rw [validateTree_errors]
  exact List.mem_append_left _
    (List.mem_append_left _ (List.mem_append_right _ (mem_os_errors hn he)))

/-- An import finding survives into the aggregated verdict. -/
theorem import_error_in_validateTree {allowOpt : Option (List String)}
    {t n : PyAst} {e : String}
    (hn : n ∈ walk t)
    (he : e ∈ importErrorsOfNode (effectiveAllowlist allowOpt) n) :
    e ∈ (CodeValidator_validateTree allowOpt t).errors := by
  rw [validateTree_errors]
  exact List.mem_append_right _ (mem_import_errors hn he)

/-! ## Claim theorems -/

/-- **C10.** For every parse outcome (a parsed tree or a syntax error)
and every allowlist configuration, the verdict returned by
`CodeValidator.validate` has an empty warnings list: all four built-in
rules, the syntax-error path and the aggregator produce
`warnings=[]`. -/
theorem validator_warnings_always_empty
    (allowOpt : Option (List String)) (parsed : Option PyAst)
    (msg : String) :
    (CodeValidator_validate allowOpt parsed msg).warnings = [] := by
  cases parsed with
  | none => rfl
  | some tree =>
    simp [CodeValidator_validate, CodeValidator_validateTree,
      NoFileIORule_validate, NoOSCommandsRule_validate,
      NoNetworkRule_validate, ImportValidationRule_validate]

/-- **C2 (counterexample).** The program `os.system` — a bare attribute
access named `system`, rooted at the name `os`, never called — passes
validation: `NoOSCommandsRule` only inspects `ast.Call` nodes, and no
other rule fires, so the claim that uncalled attribute accesses are
rejected is false. -/
theorem os_attribute_uncalled_accepted :
    (PyAst.Attribute (PyAst.Name "os") "system") ∈
        walk (PyAst.Module [PyAst.Expr
          (PyAst.Attribute (PyAst.Name "os") "system")]) ∧
      "system" ∈ OS_OPERATIONS ∧ "os" ∈ OS_MODULES ∧
      (CodeValidator_validate none (some (PyAst.Module [PyAst.Expr
        (PyAst.Attribute (PyAst.Name "os") "system")]))).is_valid = true := by
  refine ⟨?_, ?_, ?_, ?_⟩
  · simp [walk, walkList]
  · decide
  · decide
  · decide

/-- **C2 (amended).** Attribute accesses are flagged by the OS-commands
rule only when they occur as the function of a call: for every program
containing a call `v.a(...)`, if the leaf name `a` is one of
`system`/`popen`/`exec`/`eval`/`compile`/`__import__` the verdict is
invalid with the leaf-name finding, and if `v` is a bare name in
`{os, subprocess, commands}` the verdict is invalid with the
module-root finding. -/
theorem os_attribute_call_rejected
    (allowOpt : Option (List String)) (t v : PyAst) (a : String)
    (args : List PyAst)
    (h : PyAst.Call (PyAst.Attribute v a) args ∈ walk t) :
    (a ∈ OS_OPERATIONS →
      ("OS command execution not allowed: " ++ a) ∈
          (CodeValidator_validate allowOpt (some t)).errors ∧
        (CodeValidator_validate allowOpt (some t)).is_valid = false) ∧
    (∀ m, v = PyAst.Name m → m ∈ OS_MODULES →
      ("OS command execution not allowed: " ++ m ++ "." ++ a) ∈
          (CodeValidator_validate allowOpt (some t)).errors ∧
        (CodeValidator_validate allowOpt (some t)).is_valid = false) := by
  constructor
  · intro ha
    have he : ("OS command execution not allowed: " ++ a) ∈
        osErrorsOfNode (PyAst.Call (PyAst.Attribute v a) args) := by
      simp only [osErrorsOfNode]
      exact List.mem_append_left _ (by simp [ha])
    have hmem := @os_error_in_validateTree allowOpt _ _ _ h he
    exact ⟨hmem, validateTree_isValid_false hmem⟩
  · intro m hv hm
    subst hv
    have he : ("OS command execution not allowed: " ++ m ++ "." ++ a) ∈
        osErrorsOfNode (PyAst.Call (PyAst.Attribute (PyAst.Name m) a) args) := by
      simp only [osErrorsOfNode]
      exact List.mem_append_right _ (by simp [hm])
    have hmem := @os_error_in_validateTree allowOpt _ _ _ h he
    exact ⟨hmem, validateTree_isValid_false hmem⟩

/-- **C2 (amended, witness).** The program `os.system('ls')` (as a
call) is rejected with both findings. -/
theorem os_attribute_call_rejected_witness :
    ("OS command execution not allowed: system") ∈
        (CodeValidator_validate none (some (PyAst.Module [PyAst.Expr
          (PyAst.Call (PyAst.Attribute (PyAst.Name "os") "system")
            [PyAst.Constant])]))).errors ∧
      (CodeValidator_validate none (some (PyAst.Module [PyAst.Expr
        (PyAst.Call (PyAst.Attribute (PyAst.Name "os") "system")
          [PyAst.Constant])]))).is_valid = false := by
  have h := os_attribute_call_rejected none
    (PyAst.Module [PyAst.Expr
      (PyAst.Call (PyAst.Attribute (PyAst.Name "os") "system")
        [PyAst.Constant])])
    (PyAst.Name "os") "system" [PyAst.Constant]
    (by simp [walk, walkList])
  exact h.1 (by decide)

/-- **C3.** For every program importing a module whose top-level
segment is in `PROHIBITED_MODULES` (via `import X` or
`from X import ...`), and for every allowlist configuration passed to
the validator — including an override that contains that very module —
the verdict is invalid and carries the unauthorized-import finding: the
prohibition branch is checked before the allowlist branch. -/
theorem prohibited_import_rejected
    (allowOpt : Option (List String)) (t : PyAst) (nm : String)
    (h : (∃ names, PyAst.Import names ∈ walk t ∧ nm ∈ names) ∨
         (∃ names, PyAst.ImportFrom (some nm) names ∈ walk t))
    (hp : topSegment nm ∈ PROHIBITED_MODULES) :
    ("Unauthorized import detected: " ++ nm) ∈
        (CodeValidator_validate allowOpt (some t)).errors ∧
      (CodeValidator_validate allowOpt (some t)).is_valid = false := by
  have hmem : ("Unauthorized import detected: " ++ nm) ∈
      (CodeValidator_validateTree allowOpt t).errors := by
    rcases h with ⟨names, hn, hnm⟩ | ⟨names, hn⟩
    · refine import_error_in_validateTree hn ?_
      simp only [importErrorsOfNode]
      refine List.mem_flatMap.mpr ⟨nm, hnm, ?_⟩
      simp [hp]
    · refine import_error_in_validateTree hn ?_
      simp [importErrorsOfNode, hp]
  exact ⟨hmem, validateTree_isValid_false hmem⟩

/-- **C3 (witness).** `import os` is rejected even when the allowlist
override contains `os`. -/
theorem prohibited_import_rejected_witness :
    ("Unauthorized import detected: " ++ "os") ∈
        (CodeValidator_validate (some ["os", "math"])
          (some (PyAst.Module [PyAst.Import ["os"]]))).errors ∧
      (CodeValidator_validate (some ["os", "math"])
        (some (PyAst.Module [PyAst.Import ["os"]]))).is_valid = false :=
  prohibited_import_rejected (some ["os", "math"])
    (PyAst.Module [PyAst.Import ["os"]]) "os"
    (Or.inl ⟨["os"], by simp [walk, walkList], by simp⟩)
    (by decide)

/-- **C4 (counterexample).** The wildcard import `from math import *`
passes validation with no findings at all: the import rule looks only
at the module path of an `ImportFrom`, never at its alias list, so a
wildcard import of an allowlisted module is accepted and the claim that
every wildcard import is rejected is false. -/
theorem wildcard_import_of_math_accepted :
    (CodeValidator_validate none (some (PyAst.Module
        [PyAst.ImportFrom (some "math") ["*"]]))).is_valid = true ∧
      (CodeValidator_validate none (some (PyAst.Module
        [PyAst.ImportFrom (some "math") ["*"]]))).errors = [] := by
  constructor
  · decide
  · decide

/-- **C4 (amended).** Wildcard imports receive no special treatment:
`from X import *` is rejected under the import rule exactly when any
other `from X import ...` would be — when X's top-level segment is
prohibited, or not in the effective allowlist.  (In particular wildcard
imports of allowlisted modules such as `math` are accepted, see the
counterexample.) -/
theorem wildcard_import_like_any_importfrom
    (allowOpt : Option (List String)) (t : PyAst) (m : String)
    (names : List String)
    (h : PyAst.ImportFrom (some m) names ∈ walk t)
    (hm : topSegment m ∈ PROHIBITED_MODULES ∨
          topSegment m ∉ effectiveAllowlist allowOpt) :
    ("Unauthorized import detected: " ++ m) ∈
        (CodeValidator_validate allowOpt (some t)).errors ∧
      (CodeValidator_validate allowOpt (some t)).is_valid = false := by
  have hmem : ("Unauthorized import detected: " ++ m) ∈
      (CodeValidator_validateTree allowOpt t).errors := by
    refine import_error_in_validateTree h ?_
    simp only [importErrorsOfNode]
    rcases hm with hp | ha
    · simp [hp]
    · by_cases hp : topSegment m ∈ PROHIBITED_MODULES <;> simp [hp, ha]
  exact ⟨hmem, validateTree_isValid_false hmem⟩

/-- **C4 (amended, witness).** `from os import *` is rejected (its
module is prohibited), while the counterexample shows
`from math import *` is not. -/
theorem wildcard_import_like_any_importfrom_witness :
    ("Unauthorized import detected: " ++ "os") ∈
        (CodeValidator_validate none (some (PyAst.Module
          [PyAst.ImportFrom (some "os") ["*"]]))).errors ∧
      (CodeValidator_validate none (some (PyAst.Module
        [PyAst.ImportFrom (some "os") ["*"]]))).is_valid = false :=
  wildcard_import_like_any_importfrom none
    (PyAst.Module [PyAst.ImportFrom (some "os") ["*"]]) "os" ["*"]
    (by simp [walk, walkList])
    (Or.inl (by decide))

/-- **C7.** A syntactically invalid source (a failed parse) is
classified `lightweight`; a parsed program containing an import — plain
or `from`-import — whose top-level segment is in the heavy-library set
`{pandas, modin, polars, pyarrow, dask, ray, pyspark}` is classified
`heavy` (the heavy-import check is the first classification rule). -/
theorem classify_heavy_imports_and_parse_failure :
    classify none = CodeComplexity.LIGHTWEIGHT ∧
    ∀ (t : PyAst) (nm : String),
      ((∃ names, PyAst.Import names ∈ walk t ∧ nm ∈ names) ∨
       (∃ names, PyAst.ImportFrom (some nm) names ∈ walk t)) →
      topSegment nm ∈ HEAVY_IMPORTS →
      classify (some t) = CodeComplexity.HEAVY := by
  refine ⟨rfl, ?_⟩
  intro t nm h hheavy
  have hnode : hasHeavyImports t = true := by
    rcases h with ⟨names, hn, hnm⟩ | ⟨names, hn⟩
    · refine List.any_eq_true.mpr ⟨_, hn, ?_⟩
      simp only [heavyImportNode]
      exact List.any_eq_true.mpr ⟨nm, hnm, by simp [hheavy]⟩
    · refine List.any_eq_true.mpr ⟨_, hn, ?_⟩
      simp [heavyImportNode, hheavy]
  simp [classify, hnode]

/-- **C7 (witness).** `import pandas` is classified heavy, and the
failed parse is classified lightweight. -/
theorem classify_heavy_imports_witness :
    classify none = CodeComplexity.LIGHTWEIGHT ∧
      classify (some (PyAst.Module [PyAst.Import ["pandas"]])) =
        CodeComplexity.HEAVY :=
  ⟨classify_heavy_imports_and_parse_failure.1,
   classify_heavy_imports_and_parse_failure.2
     (PyAst.Module [PyAst.Import ["pandas"]]) "pandas"
     (Or.inl ⟨["pandas"], by simp [walk, walkList], by simp⟩)
     (by decide)⟩

/-- **C5 (code evaluated at the failing inputs).**
`_generate_job_id` violates the claimed job-id validity property:
* a request id of 51 `'a'`s keeps all 51 characters, is truncated to
  only 50, and with the 15-character `heavy-executor-` prefix the
  derived job id has length 65 > 63 — contradicting the method's own
  docstring bound and the repository's
  `test_job_id_generation_is_valid` assertion `len(job_id) <= 63`;
* the empty request id derives `heavy-executor-`, which ends in a
  hyphen and does not match `[a-z0-9]([-a-z0-9]*[a-z0-9])?`. -/
theorem generate_job_id_violates_validity :
    (generate_job_id (String.mk (List.replicate 51 'a'))).length = 65 ∧
      generate_job_id "" = "heavy-executor-" ∧
      matchesLabelPattern (generate_job_id "") = false := by
  refine ⟨by decide, by decide, by decide⟩

/-- **C8.** `_on_event` updates the checkpoint exactly when message
parsing, classification and dispatch all completed without raising; if
any of the three steps raises, the handler returns (after logging) with
the checkpoint untouched, leaving the message unacknowledged. -/
theorem checkpoint_iff_all_steps_succeed
    (parse : Except String CodeExecutionRequest)
    (classifyStep : CodeExecutionRequest → Except String CodeComplexity)
    (dispatch : CodeExecutionRequest → CodeComplexity → Except String Unit) :
    (on_event parse classifyStep dispatch).checkpointed = true ↔
      ∃ request complexity,
        parse = .ok request ∧
        classifyStep request = .ok complexity ∧
        dispatch request complexity = .ok () := by
  cases parse with
  | error e => simp [on_event]
  | ok request =>
    cases hc : classifyStep request with
    | error e => simp [on_event, hc]
    | ok complexity =>
      cases hd : dispatch request complexity with
      | error e => simp [on_event, hc, hd]
      | ok u => cases u; simp [on_event, hc, hd]

/-! ## The orchestration flow's max-retries terminal -/

/-- Invariant run of the validation loop when every program it will
ever validate is invalid: the flow performs corrections until
`validation_attempts` reaches `max_retries`, then ends in the state the
validator node last produced, whose status is `"validation_failed"`. -/
theorem runFromValidator_all_invalid
    (validate : String → ValidationResult)
    (classifyFn : String → CodeComplexity)
    (correct : String → Option ValidationResult → String)
    (hCorr : ∀ c vr, (validate (correct c vr)).is_valid = false) :
    ∀ (fuel : Nat) (s : GraphState),
      (validate s.generated_code).is_valid = false →
      fuel = s.max_retries - s.validation_attempts →
      s.validation_attempts ≤ s.max_retries →
      (runFromValidator validate classifyFn correct fuel s).status =
          "validation_failed" ∧
        (runFromValidator validate classifyFn correct fuel s).validation_attempts =
          s.max_retries := by
  intro fuel
  induction fuel with
  | zero =>
    intro s hcode hfuel hle
    have heq : s.validation_attempts = s.max_retries := by omega
    have hcv : check_validation_result (codeValidatorNode validate s) =
        "invalid" := by
      simp [check_validation_result, codeValidatorNode, hcode]
    have hsr : should_retry_validation (codeValidatorNode validate s) =
        "max_retries_exceeded" := by
      simp only [should_retry_validation, codeValidatorNode]
      rw [if_pos (by omega)]
    simp only [runFromValidator]
    rw [if_neg (by rw [hcv]; decide), if_pos hsr]
    exact ⟨by simp [codeValidatorNode, hcode], by simp [codeValidatorNode, heq]⟩
  | succ f ih =>
    intro s hcode hfuel hle
    have hlt : s.validation_attempts < s.max_retries := by omega
    have hcv : check_validation_result (codeValidatorNode validate s) =
        "invalid" := by
      simp [check_validation_result, codeValidatorNode, hcode]
    have hsr : should_retry_validation (codeValidatorNode validate s) =
        "correction" := by
      simp only [should_retry_validation, codeValidatorNode]
      rw [if_neg (by omega)]
    have hstep := ih (correctionNode correct (codeValidatorNode validate s))
      (by simp [correctionNode, hCorr])
      (by simp [correctionNode, codeValidatorNode]; omega)
      (by simp [correctionNode, codeValidatorNode]; omega)
    simp only [runFromValidator]
    rw [if_neg (by rw [hcv]; decide), if_neg (by rw [hsr]; decide)]
    simpa [correctionNode, codeValidatorNode] using hstep

/-- **C1 (counterexample).** A concrete run in which every generated
and corrected program fails validation and the attempt counter reaches
`maxRetries = 2`: the generator and corrector both return
`import os; os.system('ls')` (whose parse is embedded as the concrete
tree below) and the validator is `CodeValidator.validate` on that
parse.  `execute` terminates with terminal status
`"validation_failed"`, not `"validation_failed_max_retries"`: the
`check_retry_limit` node is the identity and the edge to `END` rewrites
nothing (the longer string is produced downstream, by the HTTP layer in
`llm_service/api.py`). -/
theorem flowExecute_max_retries_status_counterexample :
    (flowExecute
        (fun _ => CodeValidator_validate none (some (PyAst.Module
          [PyAst.Import ["os"],
           PyAst.Expr (PyAst.Call
             (PyAst.Attribute (PyAst.Name "os") "system")
             [PyAst.Constant])])))
        (fun _ => CodeComplexity.LIGHTWEIGHT)
        (fun _ => "import os\nos.system('ls')")
        (fun c _ => c)
        "list files" 2).status = "validation_failed" ∧
      (flowExecute
        (fun _ => CodeValidator_validate none (some (PyAst.Module
          [PyAst.Import ["os"],
           PyAst.Expr (PyAst.Call
             (PyAst.Attribute (PyAst.Name "os") "system")
             [PyAst.Constant])])))
        (fun _ => CodeComplexity.LIGHTWEIGHT)
        (fun _ => "import os\nos.system('ls')")
        (fun c _ => c)
        "list files" 2).validation_attempts = 2 ∧
      "validation_failed" ≠ "validation_failed_max_retries" := by
  refine ⟨by decide, by decide, by decide⟩

/-- **C1 (amended).** When validation fails on the generated program
and on every corrected program, `execute(query, maxRetries)` terminates
with terminal status `"validation_failed"` — the attempt counter having
reached `maxRetries` — rather than `"validation_failed_max_retries"`;
the latter string is attached only by the HTTP request surface. -/
theorem flowExecute_all_invalid_terminal
    (validate : String → ValidationResult)
    (classifyFn : String → CodeComplexity)
    (gen : String → String)
    (correct : String → Option ValidationResult → String)
    (query : String) (max_retries : Nat)
    (hGen : (validate (gen query)).is_valid = false)
    (hCorr : ∀ c vr, (validate (correct c vr)).is_valid = false) :
    (flowExecute validate classifyFn gen correct query max_retries).status =
        "validation_failed" ∧
      (flowExecute validate classifyFn gen correct query
        max_retries).validation_attempts = max_retries := by
  have h := runFromValidator_all_invalid validate classifyFn correct hCorr
    max_retries
    (codeGenerationNode gen (inputParserNode
      { query := query, generated_code := "", validation_result := none
        validation_attempts := 0, max_retries := max_retries
        classification := none, error := "", status := "initialized" }))
    (by simpa [codeGenerationNode, inputParserNode] using hGen)
    (by simp [codeGenerationNode, inputParserNode])
    (by simp [codeGenerationNode, inputParserNode])
  simpa [flowExecute, codeGenerationNode, inputParserNode] using h

/-- **C1 (amended, witness).** The concrete all-invalid run of the
counterexample, through the amended theorem. -/
theorem flowExecute_all_invalid_terminal_witness :
    (flowExecute (fun _ => ValidationResult.mk false ["finding"] [])
        (fun _ => CodeComplexity.LIGHTWEIGHT)
        (fun _ => "import os") (fun c _ => c) "q" 3).status =
        "validation_failed" ∧
      (flowExecute (fun _ => ValidationResult.mk false ["finding"] [])
        (fun _ => CodeComplexity.LIGHTWEIGHT)
        (fun _ => "import os") (fun c _ => c) "q" 3).validation_attempts = 3 :=
  flowExecute_all_invalid_terminal
    (fun _ => ValidationResult.mk false ["finding"] [])
    (fun _ => CodeComplexity.LIGHTWEIGHT)
    (fun _ => "import os") (fun c _ => c) "q" 3
    rfl (fun _ _ => rfl)

/-- `handle_error` decides `"retry"` exactly for a retryable error with
retry budget remaining. -/
theorem handle_error_retry_iff (max_retries : Nat) (e : ExecError)
    (attempt : Nat) :
    (handle_error max_retries e attempt).status = "retry" ↔
      attempt < max_retries ∧ is_retryable e = true := by
  unfold handle_error
  by_cases h1 : attempt ≥ max_retries
  · rw [if_pos h1]
    simp only []
    constructor
    · intro h; exact absurd h (by decide)
    · intro h; omega
  · rw [if_neg h1]
    by_cases h2 : is_retryable e
    · rw [if_neg (by simp [h2])]
      simp only []
      constructor
      · intro _; exact ⟨by omega, h2⟩
      · intro _; trivial
    · rw [if_pos (by simp [h2])]
      simp only []
      constructor
      · intro h; exact absurd h (by decide)
      · intro h; exact absurd h.2 (by simp [h2])

/-- Attempt `k` of the retry loop is followed by attempt `k + 1` only
when the call at index `k` raised a retryable exception and the retry
budget was not exhausted. -/
theorem retryLoop_extra_call_retryable
    (exec : Nat → AttemptOutcome) (max_retries : Nat)
    (request_id : String) :
    ∀ (fuel attempt : Nat) (hist : List ErrorInfo) (sleeps : List Nat)
      (k : Nat), attempt ≤ k →
      k + 1 < (retryLoop exec max_retries request_id fuel attempt hist
        sleeps).calls →
      (∃ e, exec k = .raised e ∧ is_retryable e = true) ∧
        k < max_retries := by
  intro fuel
  induction fuel with
  | zero =>
    intro attempt hist sleeps k hak hk
    simp only [retryLoop] at hk
    omega
  | succ f ih =>
    intro attempt hist sleeps k hak hk
    rw [retryLoop] at hk
    cases hx : exec attempt with
    | completed result =>
      rw [hx] at hk
      simp only [] at hk
      omega
    | raised e =>
      rw [hx] at hk
      simp only [] at hk
      by_cases hr : (handle_error max_retries e attempt).status = "retry"
      · rw [if_neg (by simp [hr])] at hk
        have hre := (handle_error_retry_iff max_retries e attempt).mp hr
        rcases Nat.lt_or_ge attempt k with hlt | hge
        · exact ih (attempt + 1) _ _ k hlt hk
        · have : attempt = k := by omega
          subst this
          exact ⟨⟨e, hx, hre.2⟩, hre.1⟩
      · rw [if_pos (by simpa using hr)] at hk
        simp only [] at hk
        omega

/-- **C6.** Whenever the wrapped executor returns an outcome — in
particular one with status `timeout` or `failed` — `execute_with_retry`
returns it immediately as final, with exactly one call made and no
backoff sleeps; and any attempt beyond an attempt `k` happens only
because call `k` raised an exception classified retryable while the
retry budget was not yet exhausted. -/
theorem execute_with_retry_no_retry_on_outcome :
    (∀ (exec : Nat → AttemptOutcome) (max_retries : Nat)
       (request_id : String) (r : ExecutionResult),
       exec 0 = .completed r →
       (r.status = .TIMEOUT ∨ r.status = .FAILED) →
       execute_with_retry exec max_retries request_id =
         { result := r, calls := 1, sleeps := [] }) ∧
    (∀ (exec : Nat → AttemptOutcome) (max_retries : Nat)
       (request_id : String) (k : Nat),
       k + 1 < (execute_with_retry exec max_retries request_id).calls →
       (∃ e, exec k = .raised e ∧ is_retryable e = true) ∧
         k < max_retries) := by
  constructor
  · intro exec max_retries request_id r h0 _
    unfold execute_with_retry
    rw [retryLoop, h0]
    rfl
  · intro exec max_retries request_id k hk
    exact retryLoop_extra_call_retryable exec max_retries request_id
      (max_retries + 1) 0 [] [] k (Nat.zero_le k) hk

/-- **C6 (witness).** A first call returning a timeout outcome is final
with one call and no sleeps; and in a run whose first call raises a
retryable `ResourceExhaustedError`, the second call is justified by
that retryable exception. -/
theorem execute_with_retry_no_retry_on_outcome_witness :
    execute_with_retry
        (fun _ => AttemptOutcome.completed
          { request_id := "req-1", stdout := "", stderr := "timed out"
            exit_code := -1, duration_ms := 10
            status := ExecutionStatus.TIMEOUT }) 3 "req-1" =
        { result :=
            { request_id := "req-1", stdout := "", stderr := "timed out"
              exit_code := -1, duration_ms := 10
              status := ExecutionStatus.TIMEOUT }
          calls := 1, sleeps := [] } ∧
      ((∃ e, (fun n => if n = 0 then
          AttemptOutcome.raised
            { kind := ErrKind.resourceExhaustedError, message := "busy" }
        else
          AttemptOutcome.completed
            { request_id := "req-1", stdout := "ok", stderr := ""
              exit_code := 0, duration_ms := 5
              status := ExecutionStatus.SUCCESS }) 0 = .raised e ∧
          is_retryable e = true) ∧ 0 < 3) :=
  ⟨execute_with_retry_no_retry_on_outcome.1 _ 3 "req-1" _ rfl
     (Or.inl rfl),
   execute_with_retry_no_retry_on_outcome.2
     (fun n => if n = 0 then
        AttemptOutcome.raised
          { kind := ErrKind.resourceExhaustedError, message := "busy" }
      else
        AttemptOutcome.completed
          { request_id := "req-1", stdout := "ok", stderr := ""
            exit_code := 0, duration_ms := 5
            status := ExecutionStatus.SUCCESS }) 3 "req-1" 0 (by decide)⟩

/-- **C9 (counterexample).** A run in which the monitoring deadline
(300 s) elapses with the job never reaching a terminal state and the
watch stream ending without delivering any further event: `monitor_job`
falls out of its event loop and returns status `"running"`, not
`"timeout"` — the in-loop deadline check only fires when some event
arrives after the deadline. -/
theorem monitor_job_deadline_returns_running :
    monitor_job 3 "job-1" 300 [] =
        { status := "running", job_id := "job-1", failed_count := none
          reason := none, message := none } ∧
      "running" ≠ "timeout" := by
  exact ⟨rfl, by decide⟩

/-- **C9 (amended).** `monitor_job` reports the elapsed deadline only
through events: if some event is handled after the deadline, all
earlier events having fallen through the loop body, the result has
status `"timeout"`; but when the watch stream ends without any event
triggering a return — even though the monitor deadline elapsed before
the job reached a terminal state — the result has status
`"running"`. -/
theorem monitor_job_timeout_only_via_event
    (max_job_retries : Nat) (job_id : String) (timeout : Nat) :
    (∀ (pre post : List MonitorEvent) (ev : MonitorEvent),
      (∀ x ∈ pre, monitorStep max_job_retries timeout job_id x = none) →
      ev.elapsed > timeout →
      monitor_job max_job_retries job_id timeout (pre ++ ev :: post) =
        { status := "timeout", job_id := job_id, failed_count := none
          reason := none
          message := some "Job monitoring timeout exceeded" }) ∧
    (∀ stream : List MonitorEvent,
      (∀ x ∈ stream, monitorStep max_job_retries timeout job_id x = none) →
      monitor_job max_job_retries job_id timeout stream =
        { status := "running", job_id := job_id, failed_count := none
          reason := none, message := none }) := by
  constructor
  · intro pre post ev hpre hev
    induction pre with
    | nil =>
      simp only [List.nil_append, monitor_job, monitorStep, if_pos hev]
    | cons x xs ih =>
      have hx := hpre x (by simp)
      simp only [List.cons_append, monitor_job, hx]
      exact ih (fun y hy => hpre y (by simp [hy]))
  · intro stream hstream
    induction stream with
    | nil => rfl
    | cons x xs ih =>
      have hx := hstream x (by simp)
      simp only [monitor_job, hx]
      exact ih (fun y hy => hstream y (by simp [hy]))

/-- **C9 (amended, witness).** With a 300-second deadline: a stream
whose only event arrives at 301 s yields `"timeout"`, and a stream
whose only event arrives at 10 s with the job still running yields
`"running"`. -/
theorem monitor_job_timeout_only_via_event_witness :
    monitor_job 3 "job-1" 300
        [{ elapsed := 301,
           job := { succeeded := 0, failed := 0, conditions := [] } }] =
        { status := "timeout", job_id := "job-1", failed_count := none
          reason := none
          message := some "Job monitoring timeout exceeded" } ∧
      monitor_job 3 "job-1" 300
        [{ elapsed := 10,
           job := { succeeded := 0, failed := 0, conditions := [] } }] =
        { status := "running", job_id := "job-1", failed_count := none
          reason := none, message := none } :=
  ⟨(monitor_job_timeout_only_via_event 3 "job-1" 300).1 [] []
     { elapsed := 301,
       job := { succeeded := 0, failed := 0, conditions := [] } }
     (by intro x hx; cases hx) (by decide),
   (monitor_job_timeout_only_via_event 3 "job-1" 300).2
     [{ elapsed := 10,
        job := { succeeded := 0, failed := 0, conditions := [] } }]
     (by intro x hx; simp at hx; subst hx; decide)⟩

end LlmExecutor
